import Mathlib

/-
Verification of the activity aggregation, gear-enrichment and GPX synthesis
pipeline of `app/services/strava_service.py` (class `StravaService`), as a
shallow embedding.  Python datetimes are modelled as wall-clock seconds plus
an optional UTC offset (aware vs naive); machine-level HTTP traffic is
abstracted into outcome values supplied by an environment; the filesystem
used by the GPX cache is an association list from paths to written tracks.
-/

namespace StravaNoShoes

/-- A Python `datetime`: wall-clock seconds since the epoch as read off the
clock face, together with `tz`, the UTC offset in seconds when the value is
timezone-aware (`none` models a naive datetime). -/
structure DT where
  wall : Int
  tz : Option Int
deriving DecidableEq, Repr

/-- Python's `datetime.timestamp()`: epoch seconds.  An aware datetime uses
its own offset; a naive one is interpreted in the local timezone, whose
offset `localOff` is a parameter of the model. -/
def DT.timestamp (localOff : Int) (d : DT) : Int :=
  d.wall - d.tz.getD localOff

/-- `d + timedelta(seconds := s)`: shifts the wall clock, keeps awareness. -/
def DT.addSeconds (d : DT) (s : Int) : DT :=
  { d with wall := d.wall + s }

/-- Python truthiness of an `Optional[str]`: `None` and `""` are falsy. -/
def optStrTruthy : Option String → Bool
  | some s => s ≠ ""
  | none => false

/-- Python truthiness of an `Optional[int]`: `None` and `0` are falsy. -/
def optIntTruthy : Option Int → Bool
  | some n => n ≠ 0
  | none => false

/-- Exceptions that the embedded code can raise.  `stravaAPIError` is the
service's own exception class; `httpStatusError` and `httpRequestError` are
the underlying httpx exceptions; `typeError` is Python's `TypeError` (raised
when naive and aware datetimes are compared); `validationError` is pydantic
validation failure; `outOfFuel` is a modelling artifact marking a paging
loop that has not finished within the given fuel. -/
inductive PyError where
  | stravaAPIError (msg : String)
  | httpStatusError (status : Int) (text : String)
  | httpRequestError (msg : String)
  | typeError
  | validationError
  | outOfFuel
deriving DecidableEq, Repr

/-- Whether a result is a failure of the service's own exception class. -/
def isStravaAPIError : Except PyError String → Bool
  | .error (.stravaAPIError _) => true
  | _ => false

/-! ### The request layer (`_make_request`, `_refresh_access_token`) -/

/-- Outcome of one HTTP request: a 2xx body, a non-2xx status (which
`raise_for_status` turns into `httpx.HTTPStatusError`), or a transport
failure (`httpx.RequestError`). -/
inductive HttpOutcome where
  | success (data : String)
  | httpError (status : Int) (text : String)
  | requestErr (msg : String)
deriving DecidableEq, Repr

/-- The token triple held by the service (`access_token`, `refresh_token`,
`expires_at`), each possibly unset. -/
structure TokenState where
  access_token : Option String
  refresh_token : Option String
  expires_at : Option Int
deriving DecidableEq, Repr

/-- Environment of one `_make_request` call: the current time, the token
endpoint's answer to a refresh (new `access_token`/`refresh_token`/
`expires_at`, or `none` for any failure), and the outcomes of the first
request and of the single possible retry. -/
structure ReqEnv where
  now : Int
  refreshResponse : Option (String × String × Int)
  firstOutcome : HttpOutcome
  retryOutcome : HttpOutcome
deriving DecidableEq, Repr

/-- `_refresh_access_token`: returns `False` immediately when no (truthy)
refresh token is held; otherwise posts to the token endpoint and on success
stores the three new values, returning whether it succeeded. -/
def refresh_access_token (env : ReqEnv) (st : TokenState) : Bool × TokenState :=
  if optStrTruthy st.refresh_token then
    match env.refreshResponse with
    | some (a, r, e) =>
        (true, { access_token := some a, refresh_token := some r, expires_at := some e })
    | none => (false, st)
  else
    (false, st)

/-- The condition of `_ensure_valid_token`: refresh when the access token or
expiry is falsy or the token expires within 3600 seconds. -/
def tokenNeedsRefresh (now : Int) (st : TokenState) : Bool :=
  !optStrTruthy st.access_token || !optIntTruthy st.expires_at ||
    decide (st.expires_at.getD 0 < now + 3600)

/-- `_ensure_valid_token`: conditional refresh.  Also returns how many times
`_refresh_access_token` was invoked (0 or 1). -/
def ensure_valid_token (env : ReqEnv) (st : TokenState) : TokenState × Nat :=
  if tokenNeedsRefresh env.now st then
    ((refresh_access_token env st).2, 1)
  else
    (st, 0)

/-- `_get_headers`: ensure a valid token, then fail with `StravaAPIError`
when the access token is still falsy, else produce the bearer header (the
token string stands in for the header dict). -/
def get_headers (env : ReqEnv) (st : TokenState) :
    Except PyError String × TokenState × Nat :=
  let p := ensure_valid_token env st
  if optStrTruthy p.1.access_token then
    (.ok (p.1.access_token.getD ""), p.1, p.2)
  else
    (.error (.stravaAPIError "Access token not available. Please authenticate first."),
      p.1, p.2)

instance {ε α : Type} [DecidableEq ε] [DecidableEq α] : DecidableEq (Except ε α) := fun a b =>
  match a, b with
  | .error x, .error y =>
    if h : x = y then .isTrue (by rw [h]) else .isFalse (fun hc => by cases hc; exact h rfl)
  | .ok x, .ok y =>
    if h : x = y then .isTrue (by rw [h]) else .isFalse (fun hc => by cases hc; exact h rfl)
  | .error _, .ok _ => .isFalse (fun hc => by cases hc)
  | .ok _, .error _ => .isFalse (fun hc => by cases hc)

/-- Trace of one `_make_request` call: the returned data or raised
exception, the number of `_refresh_access_token` invocations, and the number
of API requests issued. -/
structure ReqTrace where
  result : Except PyError String
  refreshCalls : Nat
  httpRequests : Nat
deriving DecidableEq, Repr

/-- `_make_request`: obtain headers, issue the request; on a 401 attempt one
refresh and, when it succeeds, re-obtain headers and retry once, the retry's
`raise_for_status`/transport failures escaping as raw httpx exceptions
(they are raised inside the `except httpx.HTTPStatusError` handler, whose
sibling clauses do not catch them); on any other failure of the first
request wrap into `StravaAPIError`. -/
def make_request (env : ReqEnv) (st : TokenState) : ReqTrace :=
  match get_headers env st with
  | (.error e, _, rc) => { result := .error e, refreshCalls := rc, httpRequests := 0 }
  | (.ok _, st1, rc) =>
    match env.firstOutcome with
    | .success d => { result := .ok d, refreshCalls := rc, httpRequests := 1 }
    | .httpError status text =>
      if status = 401 then
        match refresh_access_token env st1 with
        | (true, st2) =>
          match get_headers env st2 with
          | (.error e, _, rc2) =>
              { result := .error e, refreshCalls := rc + 1 + rc2, httpRequests := 1 }
          | (.ok _, _, rc2) =>
            match env.retryOutcome with
            | .success d =>
                { result := .ok d, refreshCalls := rc + 1 + rc2, httpRequests := 2 }
            | .httpError s2 t2 =>
                { result := .error (.httpStatusError s2 t2),
                  refreshCalls := rc + 1 + rc2, httpRequests := 2 }
            | .requestErr m =>
                { result := .error (.httpRequestError m),
                  refreshCalls := rc + 1 + rc2, httpRequests := 2 }
        | (false, _) =>
          { result := .error (.stravaAPIError "Authentication failed. Please re-authenticate."),
            refreshCalls := rc + 1, httpRequests := 1 }
      else
        { result := .error (.stravaAPIError
            ("API request failed: " ++ toString status ++ " - " ++ text)),
          refreshCalls := rc, httpRequests := 1 }
    | .requestErr m =>
        { result := .error (.stravaAPIError ("Request error: " ++ m)),
          refreshCalls := rc, httpRequests := 1 }

/-! ### Data model (`app/models/strava.py`), restricted to the fields the
verified operations read or write -/

/-- An activity record; of the upstream fields, the ones the aggregation,
filtering, sorting and GPX-synthesis code touches. -/
structure Activity where
  id : Int
  name : String
  sport_type : String
  gear_id : Option String
  gear_name : Option String
  start_date : DT
deriving DecidableEq, Repr

/-- A gear record as returned by the gear endpoint. -/
structure Gear where
  id : String
  name : String
deriving DecidableEq, Repr

/-- `ActivityFilter` with its pydantic defaults (`page = 1`,
`per_page = 30`). -/
structure ActivityFilter where
  before : Option DT := none
  after : Option DT := none
  page : Int := 1
  per_page : Int := 30
  activity_type : Option String := none
  has_gear : Option Bool := none
  gear_id : Option String := none
deriving DecidableEq, Repr

/-- pydantic validation of an `ActivityFilter` construction: `page ≥ 1`,
`1 ≤ per_page ≤ 200`; failure raises a validation error. -/
def mkActivityFilter (f : ActivityFilter) : Except PyError ActivityFilter :=
  if 1 ≤ f.page ∧ 1 ≤ f.per_page ∧ f.per_page ≤ 200 then .ok f else .error .validationError

/-- Environment of an aggregation call: `fetchPage page per_page before
after` is the activity-list endpoint's (successful) response to those query
parameters, and `gearLookup` is `get_gear_by_id` — a total function into
`Option Gear`, since that method catches every exception and returns
`None`. -/
structure AggEnv where
  fetchPage : Int → Int → Option Int → Option Int → List Activity
  gearLookup : String → Option Gear

/-! ### Gear resolution (`get_gear_by_id`, `_populate_gear_names_for_activities`) -/

/-- Dictionary lookup in the gear cache (`dict` keyed by gear id). -/
def lookupAssoc (c : List (String × String)) (k : String) : Option String :=
  (c.find? (fun p => p.1 = k)).map (·.2)

/-- Dictionary store `cache[id] = name`: replaces an existing binding. -/
def storeAssoc (c : List (String × String)) (k v : String) : List (String × String) :=
  (k, v) :: c.filter (fun p => p.1 ≠ k)

/-- The final loop of `_populate_gear_names_for_activities`: set
`activity.gear_name` from the cache when the (truthy) `gear_id` is a key. -/
def assignGearName (c : List (String × String)) (a : Activity) : Activity :=
  match a.gear_id with
  | some gid =>
    if gid ≠ "" then
      match lookupAssoc c gid with
      | some nm => { a with gear_name := some nm }
      | none => a
    else a
  | none => a

/-- `_populate_gear_names_for_activities`: collect the set of truthy gear
ids that are not yet cached (the Python `set` is modelled as a deduplicated
list; its iteration order is unspecified upstream), fetch each one — a
failed lookup contributes nothing — caching each result under the id the
response carries, then assign cached names onto the activities.  Returns
the updated activities together with the updated cache. -/
def populateGearNames (lookup : String → Option Gear)
    (cache : List (String × String)) (acts : List Activity) :
    List Activity × List (String × String) :=
  let missing := (acts.filterMap (fun a =>
    match a.gear_id with
    | some gid =>
      if gid ≠ "" ∧ lookupAssoc cache gid = none then some gid else none
    | none => none)).dedup
  let cache2 := missing.foldl (fun c gid =>
    match lookup gid with
    | some g => storeAssoc c g.id g.name
    | none => c) cache
  (acts.map (assignGearName cache2), cache2)

/-! ### Local filters and the defensive `after` re-check -/

/-- Python comparison `a > b` on datetimes: defined when both operands share
awareness (aware datetimes compare as instants, naive ones by wall clock),
a mixed comparison raising `TypeError`. -/
def pyGtDT (a b : DT) : Except PyError Bool :=
  match a.tz, b.tz with
  | none, none => .ok (decide (b.wall < a.wall))
  | some ta, some tb => .ok (decide (b.wall - tb < a.wall - ta))
  | _, _ => .error .typeError

/-- A list comprehension `[a for a in l if p a]` whose predicate can raise:
elements are tested left to right and the first raised error propagates. -/
def pyFilterM (p : Activity → Except PyError Bool) :
    List Activity → Except PyError (List Activity)
  | [] => .ok []
  | a :: as =>
    match p a with
    | .error e => .error e
    | .ok b =>
      match pyFilterM p as with
      | .error e => .error e
      | .ok rest => .ok (if b then a :: rest else rest)

/-- Truthiness of `activities and activities[0].start_date.tzinfo`. -/
def headStartAware : List Activity → Bool
  | [] => false
  | a :: _ => a.start_date.tz.isSome

/-- The client-side `after` re-filter of `get_activities`: when the filter
datetime is naive and the first activity's start date is aware, compare by
epoch seconds (strictly greater); otherwise compare datetimes directly,
which raises `TypeError` on mixed naive/aware operands. -/
def afterRecheck (localOff : Int) (aft : DT) (acts : List Activity) :
    Except PyError (List Activity) :=
  if aft.tz.isNone && headStartAware acts then
    .ok (acts.filter (fun a =>
      decide (aft.timestamp localOff < a.start_date.timestamp localOff)))
  else
    pyFilterM (fun a => pyGtDT a.start_date aft) acts

/-- The local filter block of `get_activities`: sport-type equality (only
for a truthy `activity_type`), gear presence, exact gear id (only for a
truthy `gear_id`), then the `after` re-check. -/
def applyFilters (localOff : Int) (filt : Option ActivityFilter)
    (acts : List Activity) : Except PyError (List Activity) :=
  match filt with
  | none => .ok acts
  | some f =>
    let a1 := match f.activity_type with
      | some t => if t ≠ "" then acts.filter (fun x => x.sport_type = t) else acts
      | none => acts
    let a2 := match f.has_gear with
      | some true => a1.filter (fun x => x.gear_id.isSome)
      | some false => a1.filter (fun x => x.gear_id.isNone)
      | none => a1
    let a3 := match f.gear_id with
      | some g => if g ≠ "" then a2.filter (fun x => x.gear_id = some g) else a2
      | none => a2
    match f.after with
    | some aft => afterRecheck localOff aft a3
    | none => .ok a3

/-! ### The final sort -/

/-- The order Python's `sort` uses on a list of datetimes of uniform
awareness: aware values compare as instants (`wall - tz`), naive ones by
wall clock — both are `wall - tz.getD 0` up to a shared constant. -/
def sortKey (d : DT) : Int := d.wall - d.tz.getD 0

/-- Stable insertion into a list sorted by non-increasing key. -/
def insertDescBy {α : Type} (key : α → Int) (a : α) : List α → List α
  | [] => [a]
  | b :: bs => if key b ≤ key a then a :: b :: bs else b :: insertDescBy key a bs

/-- Stable sort by non-increasing key (`sort(key=..., reverse=True)`). -/
def sortDescBy {α : Type} (key : α → Int) (l : List α) : List α :=
  l.foldr (insertDescBy key) []

/-- All start dates aware, or all naive: exactly when sorting the list of
datetimes cannot hit a mixed comparison. -/
def uniformAwareness (l : List Activity) : Bool :=
  l.all (fun a => a.start_date.tz.isSome) || l.all (fun a => a.start_date.tz.isNone)

/-- `activities.sort(key=lambda x: x.start_date, reverse=True)`: a sort
must order every naive element against every aware one, so on a
mixed-awareness list it raises `TypeError`; on a uniform list it sorts by
non-increasing `sortKey`. -/
def pySortStartDesc (l : List Activity) : Except PyError (List Activity) :=
  if uniformAwareness l then .ok (sortDescBy (fun a => sortKey a.start_date) l)
  else .error .typeError

/-! ### `get_activities` -/

/-- The `all_pages` loop of `get_activities`: from page `p` with
`per_page = 200`, fetch; stop on an empty page, stop keeping the page's
items on a page shorter than 200, otherwise keep the page and continue with
`p + 1`.  Returns the accumulated items together with the `(page, per_page)`
trace of the requests issued; `none` when the loop has not finished within
`fuel` steps. -/
def fetchAllLoop (fetch : Int → List Activity) :
    Nat → Int → Option (List Activity × List (Int × Int))
  | 0, _ => none
  | fuel + 1, p =>
    let data := fetch p
    if data.isEmpty then some ([], [(p, 200)])
    else if data.length < 200 then some (data, [(p, 200)])
    else
      match fetchAllLoop fetch fuel (p + 1) with
      | none => none
      | some (rest, reqs) => some (data ++ rest, (p, 200) :: reqs)

/-- Result of one aggregation call: the returned activities, the
`(page, per_page)` of every activity-list request issued, and the gear
cache after the call. -/
structure FetchResult where
  activities : List Activity
  requests : List (Int × Int)
  cache : List (String × String)
deriving DecidableEq, Repr

/-- The guarded enrichment step `if activities: populate(...)` — with an
empty page list the gear-name population is skipped and the cache is
untouched. -/
def popStep (env : AggEnv) (cache : List (String × String))
    (raw : List Activity) : List Activity × List (String × String) :=
  if raw.isEmpty then (raw, cache) else populateGearNames env.gearLookup cache raw

/-- The post-fetch pipeline of `get_activities`: on the fetched raw pages
(`none` when the paging loop ran out of fuel), populate gear names when the
list is non-empty, apply the local filters, and sort by start date
descending. -/
def aggregateFromPages (env : AggEnv) (localOff : Int)
    (cache : List (String × String)) (filt : Option ActivityFilter)
    (raw? : Option (List Activity × List (Int × Int))) : Except PyError FetchResult :=
  match raw? with
  | none => .error .outOfFuel
  | some (raw, reqs) =>
    match applyFilters localOff filt (popStep env cache raw).1 with
    | .error e => .error e
    | .ok filtered =>
      match pySortStartDesc filtered with
      | .error e => .error e
      | .ok sorted =>
        .ok { activities := sorted, requests := reqs, cache := (popStep env cache raw).2 }

/-- `get_activities`: translate `before`/`after` to epoch query parameters,
fetch one page (caller's `page`/`per_page`, defaulting to 1/30 with no
filter) or all pages at `per_page = 200`, then run the enrichment, filter
and sort pipeline on the merged items. -/
def get_activities (env : AggEnv) (localOff : Int)
    (cache : List (String × String)) (filt : Option ActivityFilter)
    (all_pages : Bool) (fuel : Nat) : Except PyError FetchResult :=
  let beforeTS := (filt.bind (·.before)).map (fun d => d.timestamp localOff)
  let afterTS := (filt.bind (·.after)).map (fun d => d.timestamp localOff)
  aggregateFromPages env localOff cache filt
    (if all_pages then
      fetchAllLoop (fun p => env.fetchPage p 200 beforeTS afterTS) fuel 1
    else
      let pg := (filt.map (·.page)).getD 1
      let pp := (filt.map (·.per_page)).getD 30
      some (env.fetchPage pg pp beforeTS afterTS, [(pg, pp)]))

/-- `get_running_activities`: for a truthy `limit ≤ 200`, one page of size
`limit` filtered to `sport_type = "Run"`; otherwise fetch all pages with the
same filter and, for a truthy `limit`, truncate to the first `limit`
entries. -/
def get_running_activities (env : AggEnv) (localOff : Int)
    (cache : List (String × String)) (fuel : Nat) (limit : Option Int) :
    Except PyError FetchResult :=
  if optIntTruthy limit ∧ limit.getD 0 ≤ 200 then
    match mkActivityFilter { activity_type := some "Run", per_page := limit.getD 0 } with
    | .error e => .error e
    | .ok f => get_activities env localOff cache (some f) false fuel
  else
    match mkActivityFilter { activity_type := some "Run" } with
    | .error e => .error e
    | .ok f =>
      match get_activities env localOff cache (some f) true fuel with
      | .error e => .error e
      | .ok res =>
        if optIntTruthy limit ∧ (limit.getD 0) < res.activities.length then
          .ok { res with activities := res.activities.take (limit.getD 0).toNat }
        else
          .ok res

/-! ### GPX synthesis (`download_gpx`, `get_activity_streams`) -/

/-- The stream bundle for one activity: each key present or absent, as
returned by the streams endpoint with `key_by_type=true` (`latlng` entries
are latitude/longitude pairs; numeric samples are modelled as integers). -/
structure Streams where
  latlng : Option (List (Int × Int))
  time : Option (List Int)
  altitude : Option (List Int)
  heartrate : Option (List Int)
  cadence : Option (List Int)
deriving DecidableEq, Repr

/-- The vendor `TrackPointExtension` block: holds an `hr` child and/or a
`cad` child. -/
structure TPExt where
  hr : Option Int
  cad : Option Int
deriving DecidableEq, Repr

/-- One GPX track point as constructed by `download_gpx`: elevation and
timestamp optional, and at most one extension block. -/
structure GPXPoint where
  latitude : Int
  longitude : Int
  elevation : Option Int
  time : Option DT
  ext : Option TPExt
deriving DecidableEq, Repr

/-- The point built for position sample `i`: timestamp only when the time
stream reaches index `i` (start time plus elapsed seconds), elevation only
when the elevation stream reaches `i`, and an extension block exactly when
the heart-rate or cadence stream reaches `i`, holding whichever of the two
values exist. -/
def buildPoint (start : DT) (times altitudes heartrates cadences : List Int)
    (i : Nat) (ll : Int × Int) : GPXPoint :=
  { latitude := ll.1
    longitude := ll.2
    elevation := altitudes.get? i
    time := (times.get? i).map (fun t => start.addSeconds t)
    ext :=
      if i < heartrates.length ∨ i < cadences.length then
        some { hr := heartrates.get? i, cad := cadences.get? i }
      else none }

/-- The point-construction loop `for i in range(len(latlngs))`. -/
def buildPoints (start : DT) (times altitudes heartrates cadences : List Int)
    (latlngs : List (Int × Int)) : List GPXPoint :=
  latlngs.enum.map (fun p => buildPoint start times altitudes heartrates cadences p.1 p.2)

/-- The synthesized track document (name, description, and the single
track's single segment's points). -/
structure Track where
  name : String
  description : String
  points : List GPXPoint
deriving DecidableEq, Repr

/-- A path-hostile character (space, forward slash, backslash) becomes an
underscore. -/
def sanitizeChar (c : Char) : Char :=
  if c = ' ' ∨ c = '/' ∨ c = '\\' then '_' else c

/-- Filename sanitization: Python's three successive single-character
`replace` calls (space, `/`, `\` each to `_`), expressed as one character
map — equivalent since the three patterns are single characters and the
replacement is none of them. -/
def sanitize (name : String) : String :=
  String.mk (name.data.map sanitizeChar)

/-- `if not activity_name: activity_name = activity.name` — the override is
used only when truthy. -/
def resolvedName (activity_name : Option String) (fetched : String) : String :=
  match activity_name with
  | some s => if s ≠ "" then s else fetched
  | none => fetched

/-- The cache path `os.path.join(save_path, safe_name + ".gpx")`. -/
def derivedPath (save_path name : String) : String :=
  save_path ++ "/" ++ sanitize name ++ ".gpx"

/-- Environment of a synthesis call: `get_activity_by_id` and
`get_activity_streams` responses (their remote failures are outside the
properties verified here, so the successful bodies are total). -/
structure SynthEnv where
  getActivity : Int → Activity
  getStreams : Int → Streams

/-- Outcome of one `download_gpx` call: the returned path or raised
exception, the filesystem (path ↦ written track) after the call, and the
number of stream requests issued. -/
structure SynthOut where
  result : Except PyError String
  fs : List (String × Track)
  streamFetches : Nat
deriving DecidableEq, Repr

/-- `download_gpx`: fetch the activity, derive the sanitized path, return
it immediately when a file already exists there; otherwise fetch the stream
bundle, fail with the no-GPS `StravaAPIError` when `latlng` is absent (the
filesystem untouched), else build the track from the streams and write it
at the derived path. -/
def download_gpx (env : SynthEnv) (fs : List (String × Track))
    (activity_id : Int) (save_path : String) (activity_name : Option String) :
    SynthOut :=
  let activity := env.getActivity activity_id
  let name := resolvedName activity_name activity.name
  let file_path := derivedPath save_path name
  if (fs.lookup file_path).isSome then
    { result := .ok file_path, fs := fs, streamFetches := 0 }
  else
    let streams := env.getStreams activity_id
    match streams.latlng with
    | none =>
      { result := .error (.stravaAPIError
          ("No GPS data (latlng stream) available for activity " ++ toString activity_id))
        fs := fs, streamFetches := 1 }
    | some latlngs =>
      let track : Track :=
        { name := name
          description := "Strava Activity " ++ toString activity_id
          points := buildPoints activity.start_date (streams.time.getD [])
            (streams.altitude.getD []) (streams.heartrate.getD [])
            (streams.cadence.getD []) latlngs }
      { result := .ok file_path, fs := (file_path, track) :: fs, streamFetches := 1 }

/-! ### Helper lemmas -/

theorem length_insertDescBy {α : Type} (key : α → Int) (a : α) (l : List α) :
    (insertDescBy key a l).length = l.length + 1 := by
  induction l with
  | nil => rfl
  | cons b bs ih =>
    simp only [insertDescBy]
    split <;> simp [ih]

theorem mem_insertDescBy {α : Type} (key : α → Int) (a x : α) (l : List α) :
    x ∈ insertDescBy key a l ↔ x = a ∨ x ∈ l := by
  induction l with
  | nil => simp [insertDescBy]
  | cons b bs ih =>
    simp only [insertDescBy]
    split
    · simp
    · simp [ih]
      tauto

theorem pairwise_insertDescBy {α : Type} (key : α → Int) (a : α) (l : List α)
    (h : l.Pairwise (fun x y => key y ≤ key x)) :
    (insertDescBy key a l).Pairwise (fun x y => key y ≤ key x) := by
  induction l with
  | nil => simp [insertDescBy]
  | cons b bs ih =>
    rcases List.pairwise_cons.1 h with ⟨hb, hbs⟩
    simp only [insertDescBy]
    split
    · rename_i hle
      refine List.pairwise_cons.2 ⟨?_, h⟩
      intro y hy
      rcases List.mem_cons.1 hy with hyb | hmem
      · exact hyb ▸ hle
      · exact le_trans (hb y hmem) hle
    · rename_i hgt
      refine List.pairwise_cons.2 ⟨?_, ih hbs⟩
      intro y hy
      rcases (mem_insertDescBy key a y bs).1 hy with hya | hmem
      · exact hya ▸ le_of_lt (lt_of_not_le hgt)
      · exact hb y hmem

theorem length_sortDescBy {α : Type} (key : α → Int) (l : List α) :
    (sortDescBy key l).length = l.length := by
  induction l with
  | nil => rfl
  | cons a as ih => simp [sortDescBy, List.foldr] at ih ⊢; rw [length_insertDescBy, ih]

theorem mem_sortDescBy {α : Type} (key : α → Int) (x : α) (l : List α) :
    x ∈ sortDescBy key l ↔ x ∈ l := by
  induction l with
  | nil => simp [sortDescBy]
  | cons a as ih =>
    simp [sortDescBy, List.foldr] at ih ⊢
    rw [mem_insertDescBy]
    tauto

theorem pairwise_sortDescBy {α : Type} (key : α → Int) (l : List α) :
    (sortDescBy key l).Pairwise (fun x y => key y ≤ key x) := by
  induction l with
  | nil => simp [sortDescBy]
  | cons a as ih => exact pairwise_insertDescBy key a _ ih

theorem pySortStartDesc_ok_length (l m : List Activity)
    (h : pySortStartDesc l = .ok m) : m.length = l.length := by
  unfold pySortStartDesc at h
  split at h
  · cases h; exact length_sortDescBy _ l
  · cases h

theorem pySortStartDesc_ok_mem (l m : List Activity)
    (h : pySortStartDesc l = .ok m) : ∀ a ∈ m, a ∈ l := by
  unfold pySortStartDesc at h
  split at h
  · cases h; intro a ha; exact (mem_sortDescBy _ a l).1 ha
  · cases h

theorem pySortStartDesc_ok_pairwise (localOff : Int) (l m : List Activity)
    (h : pySortStartDesc l = .ok m) :
    m.Pairwise (fun a b =>
      b.start_date.timestamp localOff ≤ a.start_date.timestamp localOff) := by
  unfold pySortStartDesc at h
  split at h
  · rename_i huni
    cases h
    have hp := pairwise_sortDescBy (fun a => sortKey a.start_date) l
    have hmem := fun a ha => (mem_sortDescBy (fun a => sortKey a.start_date) a l).1 ha
    rcases (by simpa [uniformAwareness, List.all_eq_true, Bool.or_eq_true] using huni :
      (∀ a ∈ l, a.start_date.tz.isSome = true) ∨ ∀ a ∈ l, a.start_date.tz = none) with
        hall | hall
    · refine hp.imp_of_mem ?_
      intro a b ha hb hk
      rcases Option.isSome_iff_exists.1 (hall a (hmem a ha)) with ⟨ta, hta⟩
      rcases Option.isSome_iff_exists.1 (hall b (hmem b hb)) with ⟨tb, htb⟩
      simp only [DT.timestamp, sortKey, hta, htb, Option.getD_some] at hk ⊢
      exact hk
    · refine hp.imp_of_mem ?_
      intro a b ha hb hk
      have hta := hall a (hmem a ha)
      have htb := hall b (hmem b hb)
      simp only [DT.timestamp, sortKey, hta, htb, Option.getD_none] at hk ⊢
      omega
  · cases h

theorem assignGearName_start_date (c : List (String × String)) (a : Activity) :
    (assignGearName c a).start_date = a.start_date := by
  unfold assignGearName
  rcases a.gear_id with _ | gid
  · rfl
  · dsimp only
    split
    · rcases lookupAssoc c gid with _ | nm <;> rfl
    · rfl

theorem assignGearName_sport_type (c : List (String × String)) (a : Activity) :
    (assignGearName c a).sport_type = a.sport_type := by
  unfold assignGearName
  rcases a.gear_id with _ | gid
  · rfl
  · dsimp only
    split
    · rcases lookupAssoc c gid with _ | nm <;> rfl
    · rfl

theorem assignGearName_gear_id (c : List (String × String)) (a : Activity) :
    (assignGearName c a).gear_id = a.gear_id := by
  unfold assignGearName
  split
  · split
    · split <;> rfl
    · rfl
  · rfl

theorem populateGearNames_length (lookup : String → Option Gear)
    (cache : List (String × String)) (acts : List Activity) :
    (populateGearNames lookup cache acts).1.length = acts.length := by
  simp [populateGearNames]

theorem populateGearNames_mem (lookup : String → Option Gear)
    (cache : List (String × String)) (acts : List Activity) (b : Activity)
    (h : b ∈ (populateGearNames lookup cache acts).1) :
    ∃ a ∈ acts, b = assignGearName (populateGearNames lookup cache acts).2 a := by
  simp only [populateGearNames, List.mem_map] at h ⊢
  rcases h with ⟨a, ha, hb⟩
  exact ⟨a, ha, hb.symm⟩

theorem aggregateFromPages_ok (env : AggEnv) (localOff : Int)
    (cache : List (String × String)) (filt : Option ActivityFilter)
    (raw? : Option (List Activity × List (Int × Int))) (res : FetchResult)
    (h : aggregateFromPages env localOff cache filt raw? = .ok res) :
    ∃ raw reqs filtered,
      raw? = some (raw, reqs) ∧
      applyFilters localOff filt (popStep env cache raw).1 = .ok filtered ∧
      pySortStartDesc filtered = .ok res.activities ∧
      res.requests = reqs ∧
      res.cache = (popStep env cache raw).2 := by
  unfold aggregateFromPages at h
  split at h
  · exact Except.noConfusion h
  · rename_i raw reqs
    split at h
    · exact Except.noConfusion h
    · rename_i filtered hfil
      split at h
      · exact Except.noConfusion h
      · rename_i sorted hsort
        injection h with h'
        subst h'
        exact ⟨raw, reqs, filtered, rfl, hfil, hsort, rfl, rfl⟩

/-! ### Claims -/

/-- C1: for every filter combination and every value of the fetch-all flag,
whenever `get_activities` returns a result, the returned sequence is sorted
by start timestamp (epoch seconds) in non-increasing order — most recent
first — regardless of the order in which the upstream pages returned the
activities (the environment, and with it the upstream order, is universally
quantified). -/
theorem get_activities_sorted_desc (env : AggEnv) (localOff : Int)
    (cache : List (String × String)) (filt : Option ActivityFilter)
    (all_pages : Bool) (fuel : Nat) (res : FetchResult)
    (h : get_activities env localOff cache filt all_pages fuel = .ok res) :
    res.activities.Pairwise (fun a b =>
      b.start_date.timestamp localOff ≤ a.start_date.timestamp localOff) := by
  rcases aggregateFromPages_ok env localOff cache filt _ res h with
    ⟨raw, reqs, filtered, _, _, hsort, _, _⟩
  exact pySortStartDesc_ok_pairwise localOff _ _ hsort

theorem fetchAllLoop_stops (fetch : Int → List Activity) :
    ∀ (k fuel : Nat) (p : Int), k < fuel →
      (∀ j : Nat, j < k → (fetch (p + (j : Int))).length = 200) →
      (fetch (p + (k : Int))).length < 200 →
      fetchAllLoop fetch fuel p =
        some ((List.range (k + 1)).flatMap (fun j : Nat => fetch (p + (j : Int))),
              (List.range (k + 1)).map (fun j : Nat => (p + (j : Int), (200 : Int)))) := by
  intro k
  induction k with
  | zero =>
    intro fuel p hfuel hall hlast
    obtain ⟨f, rfl⟩ : ∃ f, fuel = f + 1 := ⟨fuel - 1, by omega⟩
    unfold fetchAllLoop
    simp only [Nat.cast_zero, add_zero] at hlast
    have hr1 : List.range 1 = [0] := rfl
    by_cases he : (fetch p).isEmpty
    · simp [he, List.isEmpty_iff.1 he, hr1]
    · simp [he, hlast, hr1]
  | succ k ih =>
    intro fuel p hfuel hall hlast
    obtain ⟨f, rfl⟩ : ∃ f, fuel = f + 1 := ⟨fuel - 1, by omega⟩
    have h0 : (fetch p).length = 200 := by
      simpa using hall 0 (Nat.succ_pos k)
    have hrec := ih f (p + 1) (by omega)
      (fun j hj => by
        have h' := hall (j + 1) (by omega)
        rwa [show p + ((j + 1 : Nat) : Int) = p + 1 + (j : Int) from by push_cast; ring] at h')
      (by
        have h' := hlast
        rwa [show p + ((k + 1 : Nat) : Int) = p + 1 + (k : Int) from by push_cast; ring] at h')
    have hne : (fetch p).isEmpty = false := by
      cases hie : (fetch p).isEmpty
      · rfl
      · rw [List.isEmpty_iff.1 hie] at h0; simp at h0
    unfold fetchAllLoop
    simp only [hne, Bool.false_eq_true, if_false, h0]
    norm_num
    rw [hrec]
    have hbind : (fun a : Nat => fetch (p + ((a + 1 : Nat) : Int))) =
        (fun j : Nat => fetch (p + 1 + (j : Int))) :=
      funext fun a => congrArg fetch (by push_cast; ring)
    have hmap : (fun a : Nat => (p + ((a + 1 : Nat) : Int), (200 : Int))) =
        (fun j : Nat => (p + 1 + (j : Int), (200 : Int))) :=
      funext fun a => by
        rw [show p + ((a + 1 : Nat) : Int) = p + 1 + (a : Int) from by push_cast; ring]
    have hsplit : List.range (k + 1 + 1) = 0 :: (List.range (k + 1)).map Nat.succ :=
      List.range_succ_eq_map _
    rw [hsplit, List.flatMap_cons, List.flatMap_map, List.map_cons, List.map_map]
    simp only [Nat.succ_eq_add_one, Function.comp_def, Nat.cast_zero, add_zero]
    rw [hbind, hmap]

theorem popStep_length (env : AggEnv) (cache : List (String × String))
    (raw : List Activity) : (popStep env cache raw).1.length = raw.length := by
  unfold popStep
  split
  · rfl
  · exact populateGearNames_length _ _ _

theorem popStep_fields (env : AggEnv) (cache : List (String × String))
    (raw : List Activity) : ∀ b ∈ (popStep env cache raw).1, ∃ a ∈ raw,
      b.start_date = a.start_date ∧ b.sport_type = a.sport_type ∧ b.gear_id = a.gear_id := by
  intro b hb
  unfold popStep at hb
  split at hb
  · exact ⟨b, hb, rfl, rfl, rfl⟩
  · rcases populateGearNames_mem _ _ _ _ hb with ⟨a, ha, rfl⟩
    exact ⟨a, ha, assignGearName_start_date _ _, assignGearName_sport_type _ _,
      assignGearName_gear_id _ _⟩

/-- Witness for C1: a concrete empty-upstream environment on which
`get_activities` succeeds, with the theorem applied to its result. -/
theorem get_activities_sorted_desc_witness :
    get_activities ⟨fun _ _ _ _ => [], fun _ => none⟩ 0 [] none false 1 =
      .ok ⟨[], [(1, 30)], []⟩ ∧
    (FetchResult.mk [] [(1, 30)] []).activities.Pairwise (fun a b =>
      b.start_date.timestamp 0 ≤ a.start_date.timestamp 0) :=
  ⟨rfl, get_activities_sorted_desc ⟨fun _ _ _ _ => [], fun _ => none⟩ 0 [] none false 1 _ rfl⟩

/-- C3: with the fetch-all flag, `get_activities` pages forward from page 1
at page size 200 and stops exactly at the first empty or short page (first
conjunct, for an arbitrary stopping index `k`: the items are exactly the
concatenation of pages `p .. p+k` and one request per page is issued); in
particular, when page 1 returns 200 items and page 2 returns 50, exactly
two page requests are issued and all 250 merged items are carried into the
enrichment/filter steps — observed here as 250 returned activities under
the empty filter (second conjunct). -/
theorem get_activities_fetch_all_paging (env : AggEnv) (localOff : Int)
    (cache : List (String × String)) (fuel : Nat)
    (hfuel : 2 ≤ fuel)
    (h1 : (env.fetchPage 1 200 none none).length = 200)
    (h2 : (env.fetchPage 2 200 none none).length = 50)
    (haware : ∀ a ∈ env.fetchPage 1 200 none none ++ env.fetchPage 2 200 none none,
      a.start_date.tz.isSome = true) :
    (∀ (fetch : Int → List Activity) (k fuel2 : Nat) (p : Int), k < fuel2 →
      (∀ j : Nat, j < k → (fetch (p + (j : Int))).length = 200) →
      (fetch (p + (k : Int))).length < 200 →
      fetchAllLoop fetch fuel2 p =
        some ((List.range (k + 1)).flatMap (fun j : Nat => fetch (p + (j : Int))),
              (List.range (k + 1)).map (fun j : Nat => (p + (j : Int), (200 : Int))))) ∧
    ∃ res, get_activities env localOff cache none true fuel = .ok res ∧
      res.requests = [(1, 200), (2, 200)] ∧
      res.activities.length = 250 := by
  refine ⟨fun fetch k fuel2 p => fetchAllLoop_stops fetch k fuel2 p, ?_⟩
  have hloop := fetchAllLoop_stops (fun q => env.fetchPage q 200 none none) 1 fuel 1
    (by omega)
    (fun j hj => by
      have hj0 : j = 0 := by omega
      subst hj0
      show (env.fetchPage (1 + ((0 : Nat) : Int)) 200 none none).length = 200
      norm_num
      exact h1)
    (by
      show (env.fetchPage (1 + ((1 : Nat) : Int)) 200 none none).length < 200
      norm_num
      omega)
  have hr2 : List.range 2 = [0, 1] := rfl
  have hloop2 : fetchAllLoop (fun q => env.fetchPage q 200 none none) fuel 1 =
      some (env.fetchPage 1 200 none none ++ env.fetchPage 2 200 none none,
        [(1, 200), (2, 200)]) := by
    rw [hloop, hr2]
    norm_num
  have hga : get_activities env localOff cache none true fuel =
      aggregateFromPages env localOff cache none
        (fetchAllLoop (fun q => env.fetchPage q 200 none none) fuel 1) := rfl
  set raw := env.fetchPage 1 200 none none ++ env.fetchPage 2 200 none none with hraw
  have hrawlen : raw.length = 250 := by
    rw [hraw, List.length_append]
    omega
  have hponelen : (popStep env cache raw).1.length = 250 := by
    rw [popStep_length]
    exact hrawlen
  have huni : uniformAwareness (popStep env cache raw).1 = true := by
    unfold uniformAwareness
    rw [Bool.or_eq_true]
    left
    rw [List.all_eq_true]
    intro b hb
    rcases popStep_fields env cache raw b hb with ⟨a, ha, hsd, _, _⟩
    rw [hsd]
    exact haware a (hraw ▸ ha)
  have hsort : pySortStartDesc (popStep env cache raw).1 =
      .ok (sortDescBy (fun a => sortKey a.start_date) (popStep env cache raw).1) := by
    unfold pySortStartDesc
    rw [huni]
    simp
  refine ⟨{ activities := sortDescBy (fun a => sortKey a.start_date) (popStep env cache raw).1,
            requests := [(1, 200), (2, 200)],
            cache := (popStep env cache raw).2 }, ?_, rfl, ?_⟩
  · rw [hga, hloop2]
    have happly : applyFilters localOff (none : Option ActivityFilter)
        (popStep env cache raw).1 = .ok (popStep env cache raw).1 := rfl
    unfold aggregateFromPages
    dsimp only
    simp only [happly, hsort]
  · simp only [length_sortDescBy]
    exact hponelen

theorem get?_isSome_iff {α : Type} (l : List α) (i : Nat) :
    (l.get? i).isSome ↔ i < l.length := by
  rw [Option.isSome_iff_exists]
  constructor
  · rintro ⟨v, hv⟩
    exact (List.get?_eq_some.1 hv).1
  · intro h
    exact ⟨l.get ⟨i, h⟩, List.get?_eq_get h⟩

theorem buildPoints_length (start : DT) (times altitudes heartrates cadences : List Int)
    (latlngs : List (Int × Int)) :
    (buildPoints start times altitudes heartrates cadences latlngs).length =
      latlngs.length := by
  simp [buildPoints]

theorem buildPoints_get? (start : DT) (times altitudes heartrates cadences : List Int)
    (latlngs : List (Int × Int)) (i : Nat) :
    (buildPoints start times altitudes heartrates cadences latlngs).get? i =
      (latlngs.get? i).map (buildPoint start times altitudes heartrates cadences i) := by
  simp only [buildPoints, List.get?_map, List.get?_enum, Option.map_map]
  rfl

/-- Witness for C3: a concrete two-page upstream (200 items, then 50), with
the theorem applied at it. -/
theorem get_activities_fetch_all_paging_witness :
    ∃ res,
      get_activities
        ⟨fun p _ _ _ =>
          if p = 1 then List.replicate 200 ⟨1, "A", "Run", none, none, ⟨0, some 0⟩⟩
          else if p = 2 then List.replicate 50 ⟨1, "A", "Run", none, none, ⟨0, some 0⟩⟩
          else [], fun _ => none⟩ 0 [] none true 2 = .ok res ∧
      res.requests = [(1, 200), (2, 200)] ∧
      res.activities.length = 250 :=
  (get_activities_fetch_all_paging _ 0 [] 2 (by norm_num)
    (by dsimp only; rw [if_pos rfl]; exact List.length_replicate _ _)
    (by dsimp only; rw [if_neg (by norm_num), if_pos rfl]; exact List.length_replicate _ _)
    (by
      intro a ha
      dsimp only at ha
      rw [if_pos rfl, if_neg (by norm_num), if_pos rfl] at ha
      simp only [List.mem_append, List.mem_replicate] at ha
      rcases ha with ⟨-, rfl⟩ | ⟨-, rfl⟩ <;> rfl)).2

/-- C2: whenever a file already exists at the path derived from the
sanitized name, `download_gpx` returns that path without requesting stream
data and leaves the filesystem unchanged (first conjunct); consequently,
calling it a second time with the same activity id and display name
returns the same path as the first call, issues no stream fetch, and
leaves the filesystem as the first call left it (second conjunct). -/
theorem download_gpx_idempotent (env : SynthEnv) (fs : List (String × Track))
    (activity_id : Int) (save_path : String) (activity_name : Option String) :
    ((fs.lookup (derivedPath save_path
        (resolvedName activity_name (env.getActivity activity_id).name))).isSome →
      download_gpx env fs activity_id save_path activity_name =
        { result := .ok (derivedPath save_path
            (resolvedName activity_name (env.getActivity activity_id).name)),
          fs := fs, streamFetches := 0 }) ∧
    (∀ p, (download_gpx env fs activity_id save_path activity_name).result = .ok p →
      download_gpx env (download_gpx env fs activity_id save_path activity_name).fs
          activity_id save_path activity_name =
        { result := .ok p,
          fs := (download_gpx env fs activity_id save_path activity_name).fs,
          streamFetches := 0 }) := by
  constructor
  · intro h
    unfold download_gpx
    dsimp only
    rw [if_pos h]
  · intro p hp
    by_cases h : (fs.lookup (derivedPath save_path
        (resolvedName activity_name (env.getActivity activity_id).name))).isSome
    · have h1 : download_gpx env fs activity_id save_path activity_name =
          { result := .ok (derivedPath save_path
              (resolvedName activity_name (env.getActivity activity_id).name)),
            fs := fs, streamFetches := 0 } := by
        unfold download_gpx
        dsimp only
        rw [if_pos h]
      rw [h1] at hp ⊢
      dsimp only at hp ⊢
      injection hp with hp'
      rw [← hp']
      unfold download_gpx
      dsimp only
      rw [if_pos h]
    · have hmiss : ¬((fs.lookup (derivedPath save_path
          (resolvedName activity_name (env.getActivity activity_id).name))).isSome = true) := h
      cases hll : (env.getStreams activity_id).latlng with
      | none =>
        have h1 : download_gpx env fs activity_id save_path activity_name =
            { result := .error (.stravaAPIError
                ("No GPS data (latlng stream) available for activity " ++
                  toString activity_id)),
              fs := fs, streamFetches := 1 } := by
          unfold download_gpx
          dsimp only
          rw [if_neg hmiss, hll]
        rw [h1] at hp
        exact Except.noConfusion hp
      | some latlngs =>
        have h1 : download_gpx env fs activity_id save_path activity_name =
            { result := .ok (derivedPath save_path
                (resolvedName activity_name (env.getActivity activity_id).name)),
              fs := (derivedPath save_path
                  (resolvedName activity_name (env.getActivity activity_id).name),
                { name := resolvedName activity_name (env.getActivity activity_id).name,
                  description := "Strava Activity " ++ toString activity_id,
                  points := buildPoints (env.getActivity activity_id).start_date
                    ((env.getStreams activity_id).time.getD [])
                    ((env.getStreams activity_id).altitude.getD [])
                    ((env.getStreams activity_id).heartrate.getD [])
                    ((env.getStreams activity_id).cadence.getD []) latlngs }) :: fs,
              streamFetches := 1 } := by
          unfold download_gpx
          dsimp only
          rw [if_neg hmiss, hll]
        rw [h1] at hp ⊢
        dsimp only at hp ⊢
        injection hp with hp'
        rw [← hp']
        unfold download_gpx
        dsimp only
        rw [if_pos (by simp [List.lookup])]

/-- Witness for C2: a concrete one-point activity; the second call after a
first successful synthesis returns the cached path with no stream fetch. -/
theorem download_gpx_idempotent_witness :
    download_gpx ⟨fun _ => ⟨7, "A", "Run", none, none, ⟨0, some 0⟩⟩,
        fun _ => ⟨some [(1, 2)], none, none, none, none⟩⟩
      (download_gpx ⟨fun _ => ⟨7, "A", "Run", none, none, ⟨0, some 0⟩⟩,
          fun _ => ⟨some [(1, 2)], none, none, none, none⟩⟩ [] 7 "gpx" none).fs
      7 "gpx" none =
    { result := .ok "gpx/A.gpx",
      fs := (download_gpx ⟨fun _ => ⟨7, "A", "Run", none, none, ⟨0, some 0⟩⟩,
          fun _ => ⟨some [(1, 2)], none, none, none, none⟩⟩ [] 7 "gpx" none).fs,
      streamFetches := 0 } :=
  (download_gpx_idempotent ⟨fun _ => ⟨7, "A", "Run", none, none, ⟨0, some 0⟩⟩,
      fun _ => ⟨some [(1, 2)], none, none, none, none⟩⟩ [] 7 "gpx" none).2
    "gpx/A.gpx" rfl

/-- C6: on a cache miss, a stream bundle whose position (`latlng`) stream
is absent makes `download_gpx` fail with the no-GPS `StravaAPIError`,
regardless of which other streams are present (the environment is
arbitrary), and no track file is written — the filesystem is returned
unchanged. -/
theorem download_gpx_no_gps (env : SynthEnv) (fs : List (String × Track))
    (activity_id : Int) (save_path : String) (activity_name : Option String)
    (hmiss : (fs.lookup (derivedPath save_path
      (resolvedName activity_name (env.getActivity activity_id).name))).isSome = false)
    (hll : (env.getStreams activity_id).latlng = none) :
    download_gpx env fs activity_id save_path activity_name =
      { result := .error (.stravaAPIError
          ("No GPS data (latlng stream) available for activity " ++ toString activity_id)),
        fs := fs, streamFetches := 1 } := by
  unfold download_gpx
  dsimp only
  rw [if_neg (by rw [hmiss]; exact Bool.false_ne_true), hll]

/-- Witness for C6: a concrete bundle with every stream except `latlng`
present still fails with the no-GPS error and writes nothing. -/
theorem download_gpx_no_gps_witness :
    download_gpx ⟨fun _ => ⟨9, "B", "Run", none, none, ⟨0, some 0⟩⟩,
        fun _ => ⟨none, some [0, 1], some [10, 11], some [100, 101], some [80, 81]⟩⟩
      [] 9 "gpx" none =
    { result := .error (.stravaAPIError
        ("No GPS data (latlng stream) available for activity " ++ toString (9 : Int))),
      fs := [], streamFetches := 1 } :=
  download_gpx_no_gps ⟨fun _ => ⟨9, "B", "Run", none, none, ⟨0, some 0⟩⟩,
      fun _ => ⟨none, some [0, 1], some [10, 11], some [100, 101], some [80, 81]⟩⟩
    [] 9 "gpx" none rfl rfl

/-- C7: on a cache miss with the position stream present, the synthesized
track's point count equals the position-stream length, and at each index
`i` of the written track: the timestamp is the activity start time plus
elapsed-seconds `i` exactly when the time stream reaches `i`, the elevation
is the elevation sample exactly when that stream reaches `i`, the
heart-rate extension value is the heart-rate sample exactly when that
stream reaches `i` (so it is present iff `i` is within the stream),
likewise the cadence value, and the vendor extension block is attached iff
the heart-rate or the cadence stream reaches `i`. -/
theorem download_gpx_track_points (env : SynthEnv) (fs : List (String × Track))
    (activity_id : Int) (save_path : String) (activity_name : Option String)
    (latlngs : List (Int × Int))
    (hmiss : (fs.lookup (derivedPath save_path
      (resolvedName activity_name (env.getActivity activity_id).name))).isSome = false)
    (hll : (env.getStreams activity_id).latlng = some latlngs) :
    ∃ tr, (download_gpx env fs activity_id save_path activity_name).fs =
        (derivedPath save_path
          (resolvedName activity_name (env.getActivity activity_id).name), tr) :: fs ∧
      tr.points.length = latlngs.length ∧
      (∀ i pt, tr.points.get? i = some pt →
        pt.time = (((env.getStreams activity_id).time.getD []).get? i).map
          (fun t => (env.getActivity activity_id).start_date.addSeconds t) ∧
        pt.elevation = ((env.getStreams activity_id).altitude.getD []).get? i ∧
        pt.ext.bind (fun e => e.hr) =
          ((env.getStreams activity_id).heartrate.getD []).get? i ∧
        ((pt.ext.bind (fun e => e.hr)).isSome ↔
          i < ((env.getStreams activity_id).heartrate.getD []).length) ∧
        pt.ext.bind (fun e => e.cad) =
          ((env.getStreams activity_id).cadence.getD []).get? i ∧
        (pt.ext.isSome ↔
          (i < ((env.getStreams activity_id).heartrate.getD []).length ∨
           i < ((env.getStreams activity_id).cadence.getD []).length))) := by
  have h1 : (download_gpx env fs activity_id save_path activity_name).fs =
      (derivedPath save_path
          (resolvedName activity_name (env.getActivity activity_id).name),
        { name := resolvedName activity_name (env.getActivity activity_id).name,
          description := "Strava Activity " ++ toString activity_id,
          points := buildPoints (env.getActivity activity_id).start_date
            ((env.getStreams activity_id).time.getD [])
            ((env.getStreams activity_id).altitude.getD [])
            ((env.getStreams activity_id).heartrate.getD [])
            ((env.getStreams activity_id).cadence.getD []) latlngs }) :: fs := by
    unfold download_gpx
    dsimp only
    rw [if_neg (by rw [hmiss]; exact Bool.false_ne_true), hll]
  refine ⟨_, h1, buildPoints_length _ _ _ _ _ _, ?_⟩
  intro i pt hpt
  rw [buildPoints_get?] at hpt
  rcases hg : latlngs.get? i with _ | pr
  · rw [hg] at hpt
    exact Option.noConfusion hpt
  · rw [hg] at hpt
    injection hpt with hpt'
    subst hpt'
    unfold buildPoint
    by_cases hcond : i < ((env.getStreams activity_id).heartrate.getD []).length ∨
        i < ((env.getStreams activity_id).cadence.getD []).length
    · rw [if_pos hcond]
      refine ⟨rfl, rfl, rfl, ?_, rfl, by simp [hcond]⟩
      exact get?_isSome_iff _ i
    · rw [if_neg hcond]
      push_neg at hcond
      refine ⟨rfl, rfl, ?_, ?_, ?_, by simp [hcond]⟩
      · rw [Option.none_bind, eq_comm, List.get?_eq_none]
        omega
      · simp only [Option.none_bind, Option.isSome_none, Bool.false_eq_true, false_iff]
        omega
      · rw [Option.none_bind, eq_comm, List.get?_eq_none]
        omega

/-- Witness for C7: concrete streams of lengths 2 (position), 2 (time),
1 (elevation), 1 (heart rate), 0 (cadence). -/
theorem download_gpx_track_points_witness :
    ∃ tr, (download_gpx ⟨fun _ => ⟨5, "C", "Run", none, none, ⟨0, some 0⟩⟩,
        fun _ => ⟨some [(1, 2), (3, 4)], some [0, 10], some [50], some [100], none⟩⟩
        [] 5 "gpx" none).fs = ("gpx/C.gpx", tr) :: [] ∧
      tr.points.length = ([(1, 2), (3, 4)] : List (Int × Int)).length ∧
      (∀ i pt, tr.points.get? i = some pt →
        pt.time = (([0, 10] : List Int).get? i).map
          (fun t => (DT.mk 0 (some 0)).addSeconds t) ∧
        pt.elevation = ([50] : List Int).get? i ∧
        pt.ext.bind (fun e => e.hr) = ([100] : List Int).get? i ∧
        ((pt.ext.bind (fun e => e.hr)).isSome ↔ i < ([100] : List Int).length) ∧
        pt.ext.bind (fun e => e.cad) = ([] : List Int).get? i ∧
        (pt.ext.isSome ↔
          (i < ([100] : List Int).length ∨ i < ([] : List Int).length))) :=
  download_gpx_track_points ⟨fun _ => ⟨5, "C", "Run", none, none, ⟨0, some 0⟩⟩,
      fun _ => ⟨some [(1, 2), (3, 4)], some [0, 10], some [50], some [100], none⟩⟩
    [] 5 "gpx" none [(1, 2), (3, 4)] rfl rfl

theorem get_headers_error_msg (env : ReqEnv) (st : TokenState) (e : PyError)
    (h : (get_headers env st).1 = .error e) :
    e = .stravaAPIError "Access token not available. Please authenticate first." := by
  unfold get_headers at h
  dsimp only at h
  split at h
  · exact Except.noConfusion h
  · injection h with h'
    exact h'.symm

/-- C4: a 401 response triggers exactly one credential refresh; a
successful refresh leads to exactly one retry whose successful data is
returned, a failed refresh raises the authentication-failed
`StravaAPIError` after a single request; and no call sequence ever issues
more than two requests (final conjunct, over arbitrary environments).
The hypotheses pin the starting token as currently valid and the refreshed
token as non-degenerate (non-empty access token, sane expiry), matching the
token endpoint's behaviour. -/
theorem make_request_401_policy (env : ReqEnv) (st : TokenState) (t : String)
    (hnow : 0 ≤ env.now)
    (hv1 : optStrTruthy st.access_token = true)
    (hv2 : optIntTruthy st.expires_at = true)
    (hv3 : env.now + 3600 ≤ st.expires_at.getD 0)
    (hrt : optStrTruthy st.refresh_token = true)
    (hfirst : env.firstOutcome = .httpError 401 t)
    (hsane : ∀ a r e, env.refreshResponse = some (a, r, e) →
      a ≠ "" ∧ env.now + 3600 ≤ e) :
    ((env.refreshResponse.isSome = true →
        (make_request env st).refreshCalls = 1 ∧
        (make_request env st).httpRequests = 2 ∧
        (∀ d, env.retryOutcome = .success d → (make_request env st).result = .ok d)) ∧
      (env.refreshResponse = none →
        make_request env st =
          { result := .error (.stravaAPIError "Authentication failed. Please re-authenticate."),
            refreshCalls := 1, httpRequests := 1 })) ∧
    (∀ (env2 : ReqEnv) (st2 : TokenState), (make_request env2 st2).httpRequests ≤ 2) := by
  have hneed : tokenNeedsRefresh env.now st = false := by
    unfold tokenNeedsRefresh
    rw [hv1, hv2]
    simp only [Bool.not_true, Bool.false_or]
    rw [decide_eq_false_iff_not]
    omega
  have hens : ensure_valid_token env st = (st, 0) := by
    unfold ensure_valid_token
    rw [hneed]
    simp
  have hgh : get_headers env st = (.ok (st.access_token.getD ""), st, 0) := by
    unfold get_headers
    rw [hens]
    dsimp only
    rw [if_pos hv1]
  constructor
  · constructor
    · intro hsome
      rcases Option.isSome_iff_exists.1 hsome with ⟨⟨a, r, e⟩, hresp⟩
      rcases hsane a r e hresp with ⟨ha, he⟩
      have href : refresh_access_token env st =
          (true, { access_token := some a, refresh_token := some r, expires_at := some e }) := by
        unfold refresh_access_token
        rw [if_pos hrt, hresp]
      have h1 : optStrTruthy (some a) = true := decide_eq_true ha
      have h2 : optIntTruthy (some e) = true := decide_eq_true (by omega : e ≠ 0)
      have hneed2 : tokenNeedsRefresh env.now
          { access_token := some a, refresh_token := some r, expires_at := some e } = false := by
        unfold tokenNeedsRefresh
        rw [h1, h2]
        simp only [Bool.not_true, Bool.false_or, Option.getD_some]
        exact decide_eq_false (by omega)
      have hgh2 : get_headers env
          { access_token := some a, refresh_token := some r, expires_at := some e } =
          (.ok a, { access_token := some a, refresh_token := some r, expires_at := some e },
            0) := by
        unfold get_headers ensure_valid_token
        rw [hneed2]
        simp only [Bool.false_eq_true, if_false]
        rw [if_pos h1]
        simp
      have hmr : make_request env st =
          (match env.retryOutcome with
            | .success d => ReqTrace.mk (.ok d) (0 + 1 + 0) 2
            | .httpError s2 t2 => ReqTrace.mk (.error (.httpStatusError s2 t2)) (0 + 1 + 0) 2
            | .requestErr m => ReqTrace.mk (.error (.httpRequestError m)) (0 + 1 + 0) 2) := by
        unfold make_request
        rw [hgh]
        dsimp only
        rw [hfirst]
        dsimp only
        rw [if_pos rfl, href]
        dsimp only
        rw [hgh2]
      refine ⟨?_, ?_, ?_⟩
      · rw [hmr]
        cases env.retryOutcome <;> rfl
      · rw [hmr]
        cases env.retryOutcome <;> rfl
      · intro d hd
        rw [hmr, hd]
    · intro hnone
      have href : refresh_access_token env st = (false, st) := by
        unfold refresh_access_token
        rw [if_pos hrt, hnone]
      unfold make_request
      rw [hgh]
      dsimp only
      rw [hfirst]
      dsimp only
      rw [if_pos rfl, href]
  · intro env2 st2
    unfold make_request
    repeat' split
    all_goals dsimp only
    all_goals omega

/-- Witness for C4: a concrete 401 followed by a successful refresh and a
successful retry — one refresh, two requests, and the retried data is
returned. -/
theorem make_request_401_policy_witness :
    (make_request ⟨0, some ("a2", "r2", 999999), .httpError 401 "unauthorized", .success "DATA"⟩
        ⟨some "tok", some "ref", some 999999⟩).refreshCalls = 1 ∧
    (make_request ⟨0, some ("a2", "r2", 999999), .httpError 401 "unauthorized", .success "DATA"⟩
        ⟨some "tok", some "ref", some 999999⟩).httpRequests = 2 ∧
    (make_request ⟨0, some ("a2", "r2", 999999), .httpError 401 "unauthorized", .success "DATA"⟩
        ⟨some "tok", some "ref", some 999999⟩).result = .ok "DATA" := by
  have h := make_request_401_policy
    ⟨0, some ("a2", "r2", 999999), .httpError 401 "unauthorized", .success "DATA"⟩
    ⟨some "tok", some "ref", some 999999⟩ "unauthorized"
    (by norm_num) rfl rfl (by decide) rfl rfl
    (fun a r e ha => by
      simp only [Option.some.injEq, Prod.mk.injEq] at ha
      obtain ⟨rfl, -, rfl⟩ := ha
      exact ⟨by decide, by decide⟩)
  exact ⟨(h.1.1 rfl).1, (h.1.1 rfl).2.1, (h.1.1 rfl).2.2 "DATA" rfl⟩

/-- Counterexample to C5: a 401 followed by a successful refresh and a
retried request that fails with a 500 — the failure escapes as the raw
`httpx.HTTPStatusError`, not wrapped into `StravaAPIError` (it is raised
inside the `except httpx.HTTPStatusError` handler, whose sibling clauses do
not apply). -/
theorem make_request_retry_failure_unwrapped :
    (make_request ⟨0, some ("a2", "r2", 999999), .httpError 401 "unauthorized",
        .httpError 500 "server error"⟩ ⟨some "tok", some "ref", some 999999⟩).result =
      .error (.httpStatusError 500 "server error") ∧
    isStravaAPIError (make_request ⟨0, some ("a2", "r2", 999999),
        .httpError 401 "unauthorized", .httpError 500 "server error"⟩
      ⟨some "tok", some "ref", some 999999⟩).result = false :=
  ⟨rfl, rfl⟩

/-- C5 as amended: every error surfaced by `_make_request` is the service's
own `StravaAPIError`, except when the first request got a 401 and the
refresh succeeded — a failure of the retried request then escapes as the
underlying HTTP-status or transport exception, unwrapped. -/
theorem make_request_error_kinds (env : ReqEnv) (st : TokenState) (e : PyError)
    (h : (make_request env st).result = .error e) :
    isStravaAPIError (.error e) = true ∨
    ((∃ t, env.firstOutcome = .httpError 401 t) ∧
      ((∃ s u, env.retryOutcome = .httpError s u ∧ e = .httpStatusError s u) ∨
       (∃ m, env.retryOutcome = .requestErr m ∧ e = .httpRequestError m))) := by
  unfold make_request at h
  split at h
  · rename_i e0 st1 rc heq
    dsimp only at h
    injection h with h2
    subst h2
    rw [get_headers_error_msg env st e0 (by rw [heq])]
    exact Or.inl rfl
  · rename_i st1 rc heq
    split at h
    · dsimp only at h
      exact Except.noConfusion h
    · rename_i status text heq1
      split at h
      · rename_i hst
        split at h
        · rename_i st2 heq2
          split at h
          · rename_i e0 st3 rc2 heq3
            dsimp only at h
            injection h with h2
            subst h2
            rw [get_headers_error_msg env st2 e0 (by rw [heq3])]
            exact Or.inl rfl
          · rename_i tok st3 rc2 heq3
            split at h
            · dsimp only at h
              exact Except.noConfusion h
            · rename_i s2 t2 heq4
              dsimp only at h
              injection h with h2
              subst h2
              exact Or.inr ⟨⟨text, by rw [heq1, hst]⟩, Or.inl ⟨s2, t2, heq4, rfl⟩⟩
            · rename_i m heq4
              dsimp only at h
              injection h with h2
              subst h2
              exact Or.inr ⟨⟨text, by rw [heq1, hst]⟩, Or.inr ⟨m, heq4, rfl⟩⟩
        · dsimp only at h
          injection h with h2
          subst h2
          exact Or.inl rfl
      · dsimp only at h
        injection h with h2
        subst h2
        exact Or.inl rfl
    · rename_i m heq1
      dsimp only at h
      injection h with h2
      subst h2
      exact Or.inl rfl

/-- Witness for the amended C5: a plain transport failure of the first
request surfaces as a wrapped `StravaAPIError`. -/
theorem make_request_error_kinds_witness :
    isStravaAPIError (.error (PyError.stravaAPIError "Request error: boom")) = true ∨
    ((∃ t, (ReqEnv.mk 0 none (.requestErr "boom") (.success "d")).firstOutcome =
        .httpError 401 t) ∧
      ((∃ s u, (ReqEnv.mk 0 none (.requestErr "boom") (.success "d")).retryOutcome =
          .httpError s u ∧
          (PyError.stravaAPIError "Request error: boom") = .httpStatusError s u) ∨
       (∃ m, (ReqEnv.mk 0 none (.requestErr "boom") (.success "d")).retryOutcome =
          .requestErr m ∧
          (PyError.stravaAPIError "Request error: boom") = .httpRequestError m))) :=
  make_request_error_kinds (ReqEnv.mk 0 none (.requestErr "boom") (.success "d"))
    ⟨some "tok", some "ref", some 999999⟩ (.stravaAPIError "Request error: boom") rfl

theorem pyFilterM_ok (p : Activity → Except PyError Bool) (q : Activity → Bool) :
    ∀ l : List Activity, (∀ a ∈ l, p a = .ok (q a)) →
      pyFilterM p l = .ok (l.filter q) := by
  intro l
  induction l with
  | nil => intro _; rfl
  | cons a as ih =>
    intro hall
    unfold pyFilterM
    rw [hall a (List.mem_cons_self a as), ih (fun b hb => hall b (List.mem_cons_of_mem a hb))]
    cases hq : q a <;> simp [List.filter_cons, hq]

/-- Counterexample to C8: with a timezone-aware `after` filter value and a
naive activity start date, the `after` re-check takes the direct-comparison
branch and the aggregation call raises `TypeError` instead of comparing by
epoch seconds. -/
theorem get_activities_after_mixed_raises :
    get_activities ⟨fun _ _ _ _ => [⟨1, "A", "Run", none, none, ⟨1000, none⟩⟩], fun _ => none⟩
      0 [] (some { after := some ⟨100, some 0⟩ }) false 1 = .error .typeError := rfl

/-- C8 as amended: the epoch-second comparison is used only in the special
case `after` naive with the first activity's start date aware (first
conjunct — there it retains exactly the strictly-greater epoch rows); in
every uniform-awareness situation the direct datetime comparison taken by
the other branch agrees with the epoch comparison (second conjunct); a
mixed comparison in that branch raises `TypeError` (the counterexample). -/
theorem afterRecheck_epoch_semantics (localOff : Int) (aft : DT) (acts : List Activity) :
    ((aft.tz.isNone && headStartAware acts) = true →
      afterRecheck localOff aft acts = .ok (acts.filter (fun a =>
        decide (aft.timestamp localOff < a.start_date.timestamp localOff)))) ∧
    ((∀ a ∈ acts, a.start_date.tz.isSome = aft.tz.isSome) →
      afterRecheck localOff aft acts = .ok (acts.filter (fun a =>
        decide (aft.timestamp localOff < a.start_date.timestamp localOff)))) := by
  constructor
  · intro hcond
    unfold afterRecheck
    rw [if_pos hcond]
  · intro huni
    cases hat : aft.tz with
    | some ta =>
      have hcond : (aft.tz.isNone && headStartAware acts) = false := by
        rw [hat]
        rfl
      unfold afterRecheck
      rw [hcond]
      simp only [Bool.false_eq_true, if_false]
      refine pyFilterM_ok _ _ acts ?_
      intro a ha
      have hsome := huni a ha
      rw [hat] at hsome
      rcases Option.isSome_iff_exists.1 hsome with ⟨t, ht⟩
      unfold pyGtDT
      rw [ht, hat]
      refine congrArg Except.ok (decide_eq_decide.2 ?_)
      simp only [DT.timestamp, ht, hat, Option.getD_some]
    | none =>
      have hnaive : ∀ a ∈ acts, a.start_date.tz = none := by
        intro a ha
        have := huni a ha
        rw [hat] at this
        simpa [Option.isSome_iff_exists] using this
      have hcond : (aft.tz.isNone && headStartAware acts) = false := by
        cases acts with
        | nil => simp [headStartAware]
        | cons a as =>
          have h1 := hnaive a (List.mem_cons_self a as)
          show (aft.tz.isNone && a.start_date.tz.isSome) = false
          rw [h1]
          simp
      unfold afterRecheck
      rw [hcond]
      simp only [Bool.false_eq_true, if_false]
      refine pyFilterM_ok _ _ acts ?_
      intro a ha
      have ht := hnaive a ha
      unfold pyGtDT
      rw [ht, hat]
      refine congrArg Except.ok (decide_eq_decide.2 ?_)
      simp only [DT.timestamp, ht, hat, Option.getD_none]
      omega

/-- Witness for the amended C8: the epoch branch (naive filter, aware
first activity) and the uniform-naive branch, both on concrete data. -/
theorem afterRecheck_epoch_semantics_witness :
    afterRecheck 0 ⟨100, none⟩ [⟨1, "A", "Run", none, none, ⟨1000, some 0⟩⟩] =
      .ok [⟨1, "A", "Run", none, none, ⟨1000, some 0⟩⟩] ∧
    afterRecheck 0 ⟨100, none⟩ [⟨2, "B", "Run", none, none, ⟨50, none⟩⟩] = .ok [] := by
  constructor
  · rw [(afterRecheck_epoch_semantics 0 ⟨100, none⟩
      [⟨1, "A", "Run", none, none, ⟨1000, some 0⟩⟩]).1 rfl]
    rfl
  · rw [(afterRecheck_epoch_semantics 0 ⟨100, none⟩
      [⟨2, "B", "Run", none, none, ⟨50, none⟩⟩]).2 (by intro a ha; simp at ha; rw [ha])]
    rfl

theorem lookupAssoc_store_ne (c : List (String × String)) (k v gid : String)
    (h : ¬gid = k) : lookupAssoc (storeAssoc c k v) gid = lookupAssoc c gid := by
  unfold storeAssoc lookupAssoc
  rw [List.find?_cons_of_neg _ (by simpa using fun hk => h hk.symm)]
  congr 1
  induction c with
  | nil => rfl
  | cons hd tl ih =>
    by_cases hhd : hd.1 = k
    · rw [List.filter_cons_of_neg (by simpa using hhd),
        List.find?_cons_of_neg _ (by simp [hhd]; exact fun hk => h hk.symm)]
      exact ih
    · rw [List.filter_cons_of_pos (by simpa using hhd)]
      by_cases hg : hd.1 = gid
      · rw [List.find?_cons_of_pos _ (by simpa using hg),
          List.find?_cons_of_pos _ (by simpa using hg)]
      · rw [List.find?_cons_of_neg _ (by simpa using hg),
          List.find?_cons_of_neg _ (by simpa using hg)]
        exact ih

theorem lookupAssoc_foldl_none (lookup : String → Option Gear) (gid : String)
    (hgr : ∀ g gr, lookup g = some gr → gr.id ≠ gid) :
    ∀ (missing : List String) (c : List (String × String)),
      lookupAssoc c gid = none →
      lookupAssoc (missing.foldl (fun c g =>
        match lookup g with
        | some gr => storeAssoc c gr.id gr.name
        | none => c) c) gid = none := by
  intro missing
  induction missing with
  | nil => intro c hc; exact hc
  | cons g gs ih =>
    intro c hc
    rw [List.foldl_cons]
    refine ih _ ?_
    cases hg : lookup g with
    | none => exact hc
    | some gr =>
      show lookupAssoc (storeAssoc c gr.id gr.name) gid = none
      rw [lookupAssoc_store_ne c gr.id gr.name gid (fun he => hgr g gr hg he.symm)]
      exact hc

/-- Counterexample to C9: with a gear lookup that fails (returns `None`,
as `get_gear_by_id` does on any error), the aggregation call still
succeeds, but the affected activity's `gear_name` is `None` — there is no
"unknown" placeholder anywhere in the pipeline. -/
theorem get_activities_gear_failure_counterexample :
    get_activities ⟨fun _ _ _ _ => [⟨1, "A", "Run", some "g1", none, ⟨0, some 0⟩⟩],
        fun _ => none⟩ 0 [] none false 1 =
      .ok ⟨[⟨1, "A", "Run", some "g1", none, ⟨0, some 0⟩⟩], [(1, 30)], []⟩ ∧
    (⟨1, "A", "Run", some "g1", none, ⟨0, some 0⟩⟩ : Activity).gear_name ≠ some "unknown" :=
  ⟨rfl, by decide⟩

/-- C9 as amended: gear-name population is a total function — a failed
lookup is swallowed rather than raised (the aggregation call succeeding is
witnessed concretely by the counterexample) — and an activity whose gear id
was not already cached, fails to resolve, and is not returned under another
gear's id keeps its `gear_name` unchanged (`None` if unset) rather than
receiving any placeholder value. -/
theorem populateGearNames_failure_swallowed (lookup : String → Option Gear)
    (cache : List (String × String)) (acts : List Activity) :
    (populateGearNames lookup cache acts).1.length = acts.length ∧
    (∀ i a, acts.get? i = some a →
      (populateGearNames lookup cache acts).1.get? i =
        some (assignGearName (populateGearNames lookup cache acts).2 a)) ∧
    (∀ gid a i, acts.get? i = some a → a.gear_id = some gid →
      lookupAssoc cache gid = none →
      lookup gid = none →
      (∀ g gr, lookup g = some gr → gr.id ≠ gid) →
      ∃ b, (populateGearNames lookup cache acts).1.get? i = some b ∧
        b.gear_name = a.gear_name) := by
  refine ⟨populateGearNames_length lookup cache acts, ?_, ?_⟩
  · intro i a ha
    simp only [populateGearNames, List.get?_map, ha]
    rfl
  · intro gid a i ha hgid hc hlk hgr
    have hcache : lookupAssoc (populateGearNames lookup cache acts).2 gid = none := by
      simp only [populateGearNames]
      exact lookupAssoc_foldl_none lookup gid hgr _ cache hc
    refine ⟨assignGearName (populateGearNames lookup cache acts).2 a, ?_, ?_⟩
    · simp only [populateGearNames, List.get?_map, ha]
      rfl
    · unfold assignGearName
      rw [hgid]
      dsimp only
      by_cases hne : gid = ""
      · rw [if_neg (not_not_intro hne)]
      · rw [if_pos hne, hcache]

/-- Witness for the amended C9: a single activity with gear id `g1`, a
lookup that always fails, an empty cache — the populated list keeps
`gear_name = none`. -/
theorem populateGearNames_failure_swallowed_witness :
    ∃ b, (populateGearNames (fun _ => none) []
        [⟨1, "A", "Run", some "g1", none, ⟨0, some 0⟩⟩]).1.get? 0 = some b ∧
      b.gear_name = (⟨1, "A", "Run", some "g1", none, ⟨0, some 0⟩⟩ : Activity).gear_name :=
  (populateGearNames_failure_swallowed (fun _ => none) []
      [⟨1, "A", "Run", some "g1", none, ⟨0, some 0⟩⟩]).2.2 "g1"
    ⟨1, "A", "Run", some "g1", none, ⟨0, some 0⟩⟩ 0 rfl rfl rfl rfl
    (fun _ _ h => Option.noConfusion h)

theorem applyFilters_run (localOff : Int) (n : Int) (acts : List Activity) :
    applyFilters localOff (some { activity_type := some "Run", per_page := n }) acts =
      .ok (acts.filter (fun x => x.sport_type = "Run")) := rfl

/-- Counterexample to C10: calling `get_running_activities` with the
provided limit 0 — falsy in Python — skips both the single-page branch and
the final truncation and returns every running activity, violating the
"at most `limit` activities" clause. -/
theorem get_running_activities_zero_limit :
    get_running_activities ⟨fun p _ _ _ =>
        if p = 1 then [⟨1, "R", "Run", none, none, ⟨0, some 0⟩⟩] else [],
        fun _ => none⟩ 0 [] 2 (some 0) =
      .ok ⟨[⟨1, "R", "Run", none, none, ⟨0, some 0⟩⟩], [(1, 200)], []⟩ ∧
    ¬((FetchResult.mk [⟨1, "R", "Run", none, none, ⟨0, some 0⟩⟩]
        [(1, 200)] []).activities.length ≤ 0) :=
  ⟨rfl, by decide⟩

/-- C10 as amended: for every positive provided limit — each remote page
holding at most the requested per-page items — the returned list holds at
most `limit` activities, every one of sport type "Run"; when `limit ≤ 200`
a single page of size `limit` is requested (and filtered), otherwise all
pages are fetched, filtered, and truncated to the first `limit` entries.
The restriction to positive limits is forced by the counterexample:
`limit = 0` is falsy and disables both branches' limiting. -/
theorem get_running_activities_limit (env : AggEnv) (localOff : Int)
    (cache : List (String × String)) (fuel : Nat) (n : Int) (res : FetchResult)
    (hn : 1 ≤ n)
    (hpp : ∀ (p pp : Int) (b a : Option Int), (env.fetchPage p pp b a).length ≤ pp.toNat)
    (h : get_running_activities env localOff cache fuel (some n) = .ok res) :
    res.activities.length ≤ n.toNat ∧
    (∀ a ∈ res.activities, a.sport_type = "Run") ∧
    (n ≤ 200 → res.requests = [(1, n)]) := by
  unfold get_running_activities at h
  by_cases hc : n ≤ 200
  · rw [if_pos ⟨decide_eq_true (by omega : n ≠ 0), hc⟩] at h
    have hmk : mkActivityFilter { activity_type := some "Run", per_page := n } =
        .ok { activity_type := some "Run", per_page := n } := by
      unfold mkActivityFilter
      rw [if_pos ⟨by show (1 : Int) ≤ 1; norm_num, by show (1 : Int) ≤ n; omega,
        by show n ≤ 200; exact hc⟩]
    simp only [Option.getD_some] at h
    rw [hmk] at h
    dsimp only at h
    have h2 : aggregateFromPages env localOff cache
        (some { activity_type := some "Run", per_page := n })
        (some (env.fetchPage 1 n none none, [(1, n)])) = .ok res := h
    rcases aggregateFromPages_ok _ _ _ _ _ _ h2 with
      ⟨raw, reqs, filtered, hsome, hfil, hsort, hreq, -⟩
    injection hsome with hsome'
    cases hsome'
    rw [applyFilters_run] at hfil
    injection hfil with hfil'
    refine ⟨?_, ?_, fun _ => hreq⟩
    · have e1 := pySortStartDesc_ok_length _ _ hsort
      have e2 : filtered.length ≤ (popStep env cache (env.fetchPage 1 n none none)).1.length := by
        rw [← hfil']
        exact List.length_filter_le _ _
      have e3 := popStep_length env cache (env.fetchPage 1 n none none)
      have e4 := hpp 1 n none none
      omega
    · intro a ha
      have hmem := pySortStartDesc_ok_mem _ _ hsort a ha
      rw [← hfil'] at hmem
      exact of_decide_eq_true (List.mem_filter.1 hmem).2
  · rw [if_neg (fun hand => hc hand.2)] at h
    have hmk : mkActivityFilter { activity_type := some "Run" } =
        .ok { activity_type := some "Run" } := by
      unfold mkActivityFilter
      rw [if_pos ⟨by show (1 : Int) ≤ 1; norm_num, by show (1 : Int) ≤ 30; norm_num,
        by show (30 : Int) ≤ 200; norm_num⟩]
    rw [hmk] at h
    simp only [Option.getD_some] at h
    split at h
    · exact Except.noConfusion h
    · rename_i res0 heq
      have h2 : aggregateFromPages env localOff cache (some { activity_type := some "Run" })
          (fetchAllLoop (fun p => env.fetchPage p 200 none none) fuel 1) = .ok res0 := heq
      rcases aggregateFromPages_ok _ _ _ _ _ _ h2 with
        ⟨raw, reqs, filtered, hsome, hfil, hsort, hreq, -⟩
      rw [applyFilters_run] at hfil
      injection hfil with hfil'
      have hrun : ∀ a ∈ res0.activities, a.sport_type = "Run" := by
        intro a ha
        have hmem := pySortStartDesc_ok_mem _ _ hsort a ha
        rw [← hfil'] at hmem
        exact of_decide_eq_true (List.mem_filter.1 hmem).2
      split at h
      · rename_i hif
        injection h with h'
        subst h'
        refine ⟨?_, ?_, fun habs => absurd habs hc⟩
        · dsimp only
          rw [List.length_take]
          omega
        · intro a ha
          exact hrun a (List.take_subset _ _ ha)
      · rename_i hif
        injection h with h'
        subst h'
        refine ⟨?_, hrun, fun habs => absurd habs hc⟩
        by_cases hlt : (n : Int) < res0.activities.length
        · exact absurd ⟨decide_eq_true (by omega : n ≠ 0), hlt⟩ hif
        · omega

/-- Witness for the amended C10: an empty upstream with limit 5 — the
single-page branch requests one page of size 5 and returns no activities. -/
theorem get_running_activities_limit_witness :
    (FetchResult.mk [] [(1, 5)] []).activities.length ≤ (5 : Int).toNat ∧
    (∀ a ∈ (FetchResult.mk ([] : List Activity) [(1, 5)] []).activities,
      a.sport_type = "Run") ∧
    ((5 : Int) ≤ 200 → (FetchResult.mk ([] : List Activity) [(1, 5)] []).requests =
      [(1, 5)]) :=
  get_running_activities_limit ⟨fun _ _ _ _ => [], fun _ => none⟩ 0 [] 1 5
    ⟨[], [(1, 5)], []⟩ (by norm_num) (fun p pp b a => by simp) rfl

end StravaNoShoes
